import Mathlib

/-!
Verification of the ADMET-AI microservice serving layer
(`src/admet.py`, `src/endpoint.py`).

The embedding models:
* the static property catalog `ALL_PROPS` and the alias map
  `PROPERTY_NAME_MAP` built from it (admet.py),
* the `Admet` worker with its dynamic `__getattr__`-based getters,
* the request handlers `smi_request` (`POST /smi`) and `upload_smi`
  (`POST /upload_smi`) together with the `asyncio.Queue` worker pool
  (endpoint.py).

Python dicts are modelled as association lists in key-insertion order
with unique keys (assignment to an existing key updates in place;
a new key is appended) — exactly Python's dict semantics for the
operations the code uses (`[]=`, `.get`, `.keys()`, membership).
Prediction values are opaque pass-through data, modelled by a type
parameter `V`; the external inference engine `ADMETModel.predict` is a
parameter `predict : String → Except String (List (String × V))`,
where `.error` models the call raising an exception.
-/

set_option maxRecDepth 100000

namespace AdmetAI

/-- `str.lower()`, character by character (all catalog strings are ASCII,
where Python's and Lean's per-character lowercasing agree). -/
def pyLower (s : String) : String := ⟨s.data.map Char.toLower⟩

/-- `s.replace(" ", "_")` — the pattern is a single character, so the
replacement is a per-character map. -/
def pyUnderscore (s : String) : String :=
  ⟨s.data.map (fun c => if c = ' ' then '_' else c)⟩

/-- `s.startswith(pre)`. -/
def pyStartsWith (s pre : String) : Bool := pre.data.isPrefixOf s.data

/-- `s[n:]` (Python strings are sequences of code points). -/
def pyDrop (s : String) (n : Nat) : String := ⟨s.data.drop n⟩

/-- `line.strip()`: drop leading and trailing whitespace. -/
def pyStrip (s : String) : String :=
  ⟨((s.data.dropWhile Char.isWhitespace).reverse.dropWhile Char.isWhitespace).reverse⟩

/-- `contents.splitlines()`, with the newline character as line separator
(trailing empty pieces are harmless here: the endpoint filters out blank
lines right after). -/
def splitNewlines : List Char → List (List Char)
  | [] => [[]]
  | c :: cs =>
    if c = '\n' then [] :: splitNewlines cs
    else
      match splitNewlines cs with
      | [] => [[c]]
      | l :: ls => (c :: l) :: ls

/-- Python dict assignment `d[k] = v`: update in place if the key exists,
else append at the end (insertion order preserved). -/
def dictInsert {α : Type} (k : String) (v : α) : List (String × α) → List (String × α)
  | [] => [(k, v)]
  | e :: es => if e.1 = k then (k, v) :: es else e :: dictInsert k v es

/-- Python `d.get(k)`. -/
def dictGet {α : Type} (k : String) : List (String × α) → Option α
  | [] => none
  | e :: es => if e.1 = k then some e.2 else dictGet k es

/-- Python `list(d.keys())`. -/
def dictKeys {α : Type} (d : List (String × α)) : List String := d.map (·.1)

/-- The raw property table of admet.py: `(id, friendly name, task_type)`. -/
def ALL_PROPS : List (String × String × String) := [
  ("molecular_weight", "Molecular Weight", "regression"),
  ("logP", "LogP", "regression"),
  ("hydrogen_bond_acceptors", "Hydrogen Bond Acceptors", "regression"),
  ("hydrogen_bond_donors", "Hydrogen Bond Donors", "regression"),
  ("Lipinski", "Lipinski Rule of 5", "regression"),
  ("QED", "Quantitative Estimate of Druglikeness", "regression"),
  ("stereo_centers", "Stereo Centers", "regression"),
  ("tpsa", "Topological Polar Surface Area", "regression"),
  ("HIA_Hou", "Human Intestinal Absorption", "classification"),
  ("Bioavailability_Ma", "Oral Bioavailability", "classification"),
  ("Solubility_AqSolDB", "Aqueous Solubility", "regression"),
  ("Lipophilicity_AstraZeneca", "Lipophilicity", "regression"),
  ("HydrationFreeEnergy_FreeSolv", "Hydration Free Energy", "regression"),
  ("Caco2_Wang", "Caco2 Permeability", "regression"),
  ("PAMPA_NCATS", "PAMPA Permeability", "classification"),
  ("Pgp_Broccatelli", "P-glycoprotein Inhibition", "classification"),
  ("BBB_Martins", "Blood-Brain Barrier Penetration", "classification"),
  ("PPBR_AZ", "Plasma Protein Binding Rate", "regression"),
  ("VDss_Lombardo", "Volume of Distribution Steady State", "regression"),
  ("Half_Life_Obach", "Half-Life", "regression"),
  ("Clearance_Hepatocyte_AZ", "Drug Clearance Hepatocyte", "regression"),
  ("Clearance_Microsome_AZ", "Drug Clearance Microsome", "regression"),
  ("CYP1A2_Veith", "CYP1A2 Inhibition", "classification"),
  ("CYP2C19_Veith", "CYP2C19 Inhibition", "classification"),
  ("CYP2C9_Veith", "CYP2C9 Inhibition", "classification"),
  ("CYP2D6_Veith", "CYP2D6 Inhibition", "classification"),
  ("CYP3A4_Veith", "CYP3A4 Inhibition", "classification"),
  ("CYP2C9_Substrate_CarbonMangels", "CYP2C9 Substrate", "classification"),
  ("CYP2D6_Substrate_CarbonMangels", "CYP2D6 Substrate", "classification"),
  ("CYP3A4_Substrate_CarbonMangels", "CYP3A4 Substrate", "classification"),
  ("hERG", "hERG Blocking", "classification"),
  ("ClinTox", "Clinical Toxicity", "classification"),
  ("AMES", "AMES Mutagenicity", "classification"),
  ("DILI", "Drug Induced Liver Injury", "classification"),
  ("Carcinogens_Lagunin", "Carcinogenicity", "classification"),
  ("LD50_Zhu", "Acute Toxicity LD50", "regression"),
  ("Skin_Reaction", "Skin Reaction", "classification"),
  ("NR-AR", "Androgen Receptor", "classification"),
  ("NR-AR-LBD", "Androgen Receptor LBD", "classification"),
  ("NR-AhR", "Aryl Hydrocarbon Receptor", "classification"),
  ("NR-Aromatase", "Aromatase", "classification"),
  ("NR-ER", "Estrogen Receptor", "classification"),
  ("NR-ER-LBD", "Estrogen Receptor LBD", "classification"),
  ("NR-PPAR-gamma", "PPAR-gamma", "classification"),
  ("SR-ARE", "ARE", "classification"),
  ("SR-ATAD5", "ATAD5", "classification"),
  ("SR-HSE", "HSE", "classification"),
  ("SR-MMP", "Mitochondrial Membrane Potential", "classification"),
  ("SR-p53", "p53", "classification")]

/-- The alias map of admet.py: for each property,
`map[pid] = pid`, `map[pid.lower()] = pid`,
`map[friendly_name.lower().replace(" ", "_")] = pid`, in that order. -/
def PROPERTY_NAME_MAP : List (String × String) :=
  ALL_PROPS.foldl
    (fun m p =>
      dictInsert (pyUnderscore (pyLower p.2.1)) p.1
        (dictInsert (pyLower p.1) p.1 (dictInsert p.1 p.1 m)))
    []

/-- The three raw alias keys one catalog row contributes to the map. -/
def aliasKeys (p : String × String × String) : List String :=
  [p.1, pyLower p.1, pyUnderscore (pyLower p.2.1)]

/-- The `Admet` worker: its only state used by the endpoints is
`self.preds`, a dict from property id to a prediction value. -/
structure Admet (V : Type) where
  preds : List (String × V)
deriving DecidableEq, Repr

/-- A fresh worker (`Admet.__init__` sets `self.preds = {}`). -/
def Admet.fresh (V : Type) : Admet V := ⟨[]⟩

/-- `Admet.__getattr__(name)` followed by calling the returned getter, as the
endpoints do with `model.__getattr__(f"get_{prop}")()`: if `name` starts with
`get_`, strip the prefix, map through `PROPERTY_NAME_MAP`, and return the
stored prediction if present; every other case raises `AttributeError(name)`
(whose `str` is `name`). -/
def Admet.getattr {V : Type} (a : Admet V) (name : String) : Except String V :=
  if pyStartsWith name "get_" then
    let prop := pyDrop name 4
    match dictGet prop PROPERTY_NAME_MAP with
    | some full =>
      match dictGet full a.preds with
      | some v => .ok v
      | none => .error name
    | none => .error name
  else .error name

/-! ## endpoint.py: request/response models -/

/-- Body of `POST /smi`. -/
structure Request where
  smiles : String
  property : Option (List String) := none
deriving DecidableEq, Repr

/-- Prediction result for a single property. -/
structure PropertyResult (V : Type) where
  property : String
  status : String
  results : Option V := none
  error : Option String := none
deriving DecidableEq, Repr

/-- Response model for the SMILES prediction endpoint. `results` is a
Python dict keyed by canonical property id. -/
structure Response (V : Type) where
  smiles : String
  status : String
  results : List (String × PropertyResult V)
  error : Option String := none
deriving DecidableEq, Repr

/-- Response model for the bulk SMILES prediction endpoint. -/
structure BulkResponse (V : Type) where
  filename : String
  requested_properties : Option (List String) := none
  total_smiles : Nat
  results : List (Response V)
deriving DecidableEq, Repr

/-- Python-style single-quote character, used by `repr` of strings. -/
def pyQuote : String := String.singleton (Char.ofNat 39)

/-- Python `str(list_of_strings)`: `['a', 'b']`. -/
def pyListRepr (keys : List String) : String :=
  "[" ++ String.intercalate ", " (keys.map (fun k => pyQuote ++ k ++ pyQuote)) ++ "]"

/-- The f-string built at endpoint.py:58, grouped so that the invalid alias
and the trailing key list are visible as literal append components. -/
def invalidPropertyError (p : String) : String :=
  ("Invalid property: " ++ pyQuote) ++ p ++
    ((pyQuote ++ ". Available properties: ") ++ pyListRepr (dictKeys PROPERTY_NAME_MAP))

/-- The validation loop of `get_valid_properties`: map each requested alias
through `PROPERTY_NAME_MAP`, returning `([], error)` at the first alias that
fails to resolve. -/
def resolveProps : List String → List String × Option String
  | [] => ([], none)
  | p :: rest =>
    match dictGet p PROPERTY_NAME_MAP with
    | none => ([], some (invalidPropertyError p))
    | some full =>
      match resolveProps rest with
      | (props, none) => (full :: props, none)
      | (_, some e) => ([], some e)

/-- `get_valid_properties` of endpoint.py: `None` yields the full catalog id
list (`[prop[0] for prop in ALL_PROPS]`), otherwise the validation loop runs
(note: an explicit `[]` takes the loop branch, since the source tests
`is None`). -/
def get_valid_properties (requested_properties : Option (List String)) :
    List String × Option String :=
  match requested_properties with
  | none => (ALL_PROPS.map (·.1), none)
  | some reqs => resolveProps reqs

/-- One iteration of the per-property loop shared by both endpoints
(endpoint.py:94-105 and 130-141): `try` the dynamic getter, producing a
success `PropertyResult` with the value, or an error `PropertyResult`
carrying `str(e)` of the raised `AttributeError`. -/
def mkPropertyResult {V : Type} (m : Admet V) (prop : String) : PropertyResult V :=
  match m.getattr ("get_" ++ prop) with
  | .ok v => { property := prop, status := "success", results := some v }
  | .error e => { property := prop, status := "error", error := some e }

/-- The whole per-property loop: build the `results` dict over the resolved
property list (duplicates overwrite, as in a Python dict). -/
def buildResults {V : Type} (m : Admet V) (props : List String) :
    List (String × PropertyResult V) :=
  props.foldl (fun results prop => dictInsert prop (mkPropertyResult m prop) results) []

/-- The body of `smi_request` between `acquire` and the `finally` release:
returns the worker as it is put back, paired with the outcome (`.error ex`
models an exception propagating out of the `try`). On alias-resolution
failure the source passes the keyword `errors=` to `Response`, whose field
is named `error`; pydantic ignores the unknown keyword, so the `error`
field stays `None`. A failing `model.run` leaves `self.preds` unchanged
(the exception is raised before the assignment). -/
def smiBody {V : Type} (predict : String → Except String (List (String × V)))
    (req : Request) (m : Admet V) : Admet V × Except String (Response V) :=
  match get_valid_properties req.property with
  | (_, some _e) =>
    (m, .ok { smiles := req.smiles, status := "error", results := [], error := none })
  | (props, none) =>
    match predict req.smiles with
    | .error ex => (m, .error ex)
    | .ok preds =>
      let m2 : Admet V := { preds := preds }
      (m2, .ok { smiles := req.smiles, status := "success",
                 results := buildResults m2 props, error := none })

/-- `POST /smi`: `await model_pool.get()` takes the front worker of the FIFO
queue (`none` models blocking forever on an empty pool); the `finally`
block puts the worker back at the tail on every exit path. -/
def smi_request {V : Type} (predict : String → Except String (List (String × V)))
    (pool : List (Admet V)) (req : Request) :
    Option (List (Admet V) × Except String (Response V)) :=
  match pool with
  | [] => none
  | m :: rest =>
    let out := smiBody predict req m
    some (rest ++ [out.1], out.2)

/-- `[line.strip() for line in contents.splitlines() if line.strip()]`. -/
def parseSmilesLines (contents : String) : List String :=
  (((splitNewlines contents.data).map (fun l => pyStrip ⟨l⟩))).filter (fun s => s ≠ "")

/-- The per-input loop of `upload_smi` (endpoint.py:126-142): run the model
on each input in order and collect each input's own `results` dict; an
exception from `model.run` propagates, abandoning the outputs collected so
far, with the worker's preds left at the last successful run. -/
def bulkLoop {V : Type} (predict : String → Except String (List (String × V)))
    (props : List String) :
    Admet V → List String → Admet V × Except String (List (List (String × PropertyResult V)))
  | m, [] => (m, .ok [])
  | m, smi :: rest =>
    match predict smi with
    | .error ex => (m, .error ex)
    | .ok preds =>
      let m2 : Admet V := { preds := preds }
      let out := buildResults m2 props
      match bulkLoop predict props m2 rest with
      | (m3, .ok outs) => (m3, .ok (out :: outs))
      | (m3, .error ex) => (m3, .error ex)

/-- `POST /upload_smi`: split the uploaded contents into non-blank stripped
lines, acquire a worker (front of the FIFO queue; `none` models blocking on
an empty pool), resolve the aliases, run the per-input loop, release the
worker in the `finally`, and zip the inputs with the collected outputs into
per-input `Response` values. On alias-resolution failure the response has
an empty `results` list and the error message is not surfaced at all
(`BulkResponse` has no error field). -/
def upload_smi {V : Type} (predict : String → Except String (List (String × V)))
    (pool : List (Admet V)) (filename : String) (contents : String)
    (property : Option (List String)) :
    Option (List (Admet V) × Except String (BulkResponse V)) :=
  let smiles_list := parseSmilesLines contents
  match pool with
  | [] => none
  | m :: rest =>
    match get_valid_properties property with
    | (_, some _e) =>
      some (rest ++ [m], .ok { filename := filename, requested_properties := property,
                               total_smiles := smiles_list.length, results := [] })
    | (props, none) =>
      match bulkLoop predict props m smiles_list with
      | (m2, .error ex) => some (rest ++ [m2], .error ex)
      | (m2, .ok outputs) =>
        some (rest ++ [m2], .ok
          { filename := filename, requested_properties := property,
            total_smiles := smiles_list.length,
            results := (smiles_list.zip outputs).map (fun p =>
              { smiles := p.1, status := "success", results := p.2, error := none }) })

/-! ## Helper lemmas -/

theorem dictGet_insert_self {α : Type} (k : String) (v : α) (d : List (String × α)) :
    dictGet k (dictInsert k v d) = some v := by
  induction d with
  | nil => simp [dictInsert, dictGet]
  | cons e es ih =>
    by_cases h : e.1 = k
    · simp [dictInsert, dictGet, h]
    · simp [dictInsert, dictGet, h, ih]

theorem dictGet_insert_ne {α : Type} {k k' : String} (hne : k' ≠ k) (v : α)
    (d : List (String × α)) : dictGet k' (dictInsert k v d) = dictGet k' d := by
  induction d with
  | nil =>
    simp only [dictInsert, dictGet]
    rw [if_neg (fun hh => hne hh.symm)]
  | cons e es ih =>
    by_cases h : e.1 = k
    · have h1 : k ≠ k' := fun hh => hne hh.symm
      have h2 : e.1 ≠ k' := h ▸ h1
      simp [dictInsert, dictGet, h, h1, h2]
    · simp [dictInsert, dictGet, h, ih]

theorem buildResults_foldl_get {V : Type} (m : Admet V) (props : List String) (p : String)
    (d0 : List (String × PropertyResult V)) :
    dictGet p (props.foldl (fun r q => dictInsert q (mkPropertyResult m q) r) d0)
      = if p ∈ props then some (mkPropertyResult m p) else dictGet p d0 := by
  induction props generalizing d0 with
  | nil => simp
  | cons q rest ih =>
    simp only [List.foldl_cons]
    rw [ih]
    by_cases hmem : p ∈ rest
    · simp [hmem]
    · by_cases hpq : p = q
      · subst hpq
        simp [hmem, dictGet_insert_self]
      · simp [hmem, hpq, dictGet_insert_ne hpq]

theorem buildResults_get_mem {V : Type} (m : Admet V) {props : List String} {p : String}
    (hp : p ∈ props) : dictGet p (buildResults m props) = some (mkPropertyResult m p) := by
  rw [buildResults, buildResults_foldl_get, if_pos hp]

theorem smiBody_success {V : Type} (predict : String → Except String (List (String × V)))
    (req : Request) (m : Admet V) (props : List String) (preds : List (String × V))
    (hres : get_valid_properties req.property = (props, none))
    (hrun : predict req.smiles = .ok preds) :
    smiBody predict req m
      = (⟨preds⟩, .ok { smiles := req.smiles, status := "success",
                        results := buildResults ⟨preds⟩ props, error := none }) := by
  simp [smiBody, hres, hrun]

theorem smiBody_resolution_error {V : Type}
    (predict : String → Except String (List (String × V))) (req : Request) (m : Admet V)
    (e : String) (hres : (get_valid_properties req.property).2 = some e) :
    smiBody predict req m
      = (m, .ok { smiles := req.smiles, status := "error", results := [], error := none }) := by
  obtain ⟨l, hl⟩ : ∃ l, get_valid_properties req.property = (l, some e) :=
    ⟨(get_valid_properties req.property).1, by rw [← hres]⟩
  simp [smiBody, hl]

theorem bulkLoop_ok {V : Type} (predict : String → Except String (List (String × V)))
    (predsFn : String → List (String × V)) (props : List String) (sl : List String) :
    ∀ (m : Admet V), (∀ s ∈ sl, predict s = .ok (predsFn s)) →
      ∃ m2, bulkLoop predict props m sl
        = (m2, .ok (sl.map (fun s => buildResults ⟨predsFn s⟩ props))) := by
  induction sl with
  | nil => exact fun m _ => ⟨m, rfl⟩
  | cons smi rest ih =>
    intro m h
    have hsmi : predict smi = .ok (predsFn smi) := h smi (List.mem_cons_self smi rest)
    obtain ⟨m2, hloop⟩ := ih ⟨predsFn smi⟩ (fun s hs => h s (List.mem_cons_of_mem _ hs))
    exact ⟨m2, by simp [bulkLoop, hsmi, hloop]⟩

theorem zip_map_self {α β : Type} (f : α → β) (l : List α) :
    l.zip (l.map f) = l.map (fun a => (a, f a)) := by
  induction l with
  | nil => rfl
  | cons a l ih => simp [ih]

theorem invalidPropertyError_ne_empty (p : String) : invalidPropertyError p ≠ "" := by
  intro h
  have hlen := congrArg String.length h
  simp [invalidPropertyError, String.length_append] at hlen
  exact (by decide : ¬ ("Invalid property: ".length = 0)) hlen.1.1.1

theorem invalidPropertyError_names (p : String) :
    ∃ a b, invalidPropertyError p = a ++ p ++ b :=
  ⟨"Invalid property: " ++ pyQuote,
   (pyQuote ++ ". Available properties: ") ++ pyListRepr (dictKeys PROPERTY_NAME_MAP), rfl⟩

theorem invalidPropertyError_lists_keys (p : String) :
    ∃ c, invalidPropertyError p = c ++ pyListRepr (dictKeys PROPERTY_NAME_MAP) :=
  ⟨("Invalid property: " ++ pyQuote) ++ p ++ (pyQuote ++ ". Available properties: "), by
    simp [invalidPropertyError, String.append_assoc]⟩

/-! ## Claim theorems -/

/-- C1: for every uploaded batch of non-blank input lines whose requested
properties all resolve (and whose per-input prediction runs succeed), the
bulk endpoint returns one `Response` per input line, in order, the i-th
pairing input i with the `PropertyResult` map built from input i's own
prediction run — not from any other input's run. -/
theorem C1_bulk_pairing {V : Type} (predict : String → Except String (List (String × V)))
    (predsFn : String → List (String × V)) (m : Admet V) (rest : List (Admet V))
    (filename contents : String) (property : Option (List String)) (props : List String)
    (hres : get_valid_properties property = (props, none))
    (hrun : ∀ s ∈ parseSmilesLines contents, predict s = .ok (predsFn s)) :
    ∃ m2, upload_smi predict (m :: rest) filename contents property
      = some (rest ++ [m2], .ok
          { filename := filename, requested_properties := property,
            total_smiles := (parseSmilesLines contents).length,
            results := (parseSmilesLines contents).map (fun s =>
              { smiles := s, status := "success",
                results := buildResults ⟨predsFn s⟩ props, error := none }) }) := by
  obtain ⟨m2, hloop⟩ := bulkLoop_ok predict predsFn props (parseSmilesLines contents) m hrun
  exact ⟨m2, by simp [upload_smi, hres, hloop, zip_map_self]⟩

/-- C1 witness at a concrete two-line batch. -/
theorem C1_bulk_pairing_witness :
    ∃ m2, upload_smi (V := Nat) (fun s => .ok [("logP", s.length)]) [⟨[]⟩] "batch.smi"
        "CCO\nCCN" (some ["logP"])
      = some ([] ++ [m2], .ok
          { filename := "batch.smi", requested_properties := some ["logP"],
            total_smiles := (parseSmilesLines "CCO\nCCN").length,
            results := (parseSmilesLines "CCO\nCCN").map (fun s =>
              { smiles := s, status := "success",
                results := buildResults ⟨[("logP", s.length)]⟩ ["logP"], error := none }) }) :=
  C1_bulk_pairing (fun s => .ok [("logP", s.length)]) (fun s => [("logP", s.length)])
    ⟨[]⟩ [] "batch.smi" "CCO\nCCN" (some ["logP"]) ["logP"] rfl (fun _ _ => rfl)

/-- C2 counterexample: a resolved property that is absent from the run's
`PredictionSet` yields a `PropertyResult` of status `"error"` (the dynamic
getter raises `AttributeError`), not `"success"` as the claim states. -/
theorem C2_absent_property_cex :
    (smi_request (V := Nat) (fun _ => .ok []) [⟨[]⟩] ⟨"CCO", some ["logP"]⟩
      = some ([⟨[]⟩], .ok
          { smiles := "CCO", status := "success",
            results := [("logP",
              { property := "logP", status := "error",
                results := none, error := some "get_logP" })],
            error := none }))
    ∧ ("error" : String) ≠ "success" := ⟨rfl, by decide⟩

/-- C2 (amended): for every single-input request whose aliases resolve and
whose prediction run succeeds, each requested canonical id independently
yields one `PropertyResult`: status success exactly when the dynamic getter
returns a value (the property is present in the run's `PredictionSet`), and
status error when the getter raises (including when the property is absent
from the run); a fault on one property never aborts the evaluation of the
sibling properties — every requested id gets its own entry. -/
theorem C2_per_property_isolation {V : Type}
    (predict : String → Except String (List (String × V))) (preds : List (String × V))
    (m : Admet V) (rest : List (Admet V)) (req : Request) (props : List String)
    (hres : get_valid_properties req.property = (props, none))
    (hrun : predict req.smiles = .ok preds) :
    smi_request predict (m :: rest) req
      = some (rest ++ [⟨preds⟩], .ok
          { smiles := req.smiles, status := "success",
            results := buildResults ⟨preds⟩ props, error := none })
    ∧ ∀ p ∈ props,
        dictGet p (buildResults (V := V) ⟨preds⟩ props) = some (mkPropertyResult ⟨preds⟩ p)
        ∧ ((∃ v, Admet.getattr (V := V) ⟨preds⟩ ("get_" ++ p) = .ok v
              ∧ mkPropertyResult (V := V) ⟨preds⟩ p
                  = { property := p, status := "success", results := some v, error := none })
          ∨ (∃ e, Admet.getattr (V := V) ⟨preds⟩ ("get_" ++ p) = .error e
              ∧ mkPropertyResult (V := V) ⟨preds⟩ p
                  = { property := p, status := "error", results := none, error := some e })) := by
  constructor
  · simp [smi_request, smiBody_success predict req m props preds hres hrun]
  · intro p hp
    refine ⟨buildResults_get_mem _ hp, ?_⟩
    rcases hg : Admet.getattr (V := V) ⟨preds⟩ ("get_" ++ p) with e | v
    · exact .inr ⟨e, rfl, by simp [mkPropertyResult, hg]⟩
    · exact .inl ⟨v, rfl, by simp [mkPropertyResult, hg]⟩

/-- C2 witness: a request for `logP` (present) and `tpsa` (absent) gets one
entry per property, `logP` a success and `tpsa` an isolated error. -/
theorem C2_per_property_isolation_witness :
    (smi_request (V := Nat) (fun _ => .ok [("logP", 5)]) [⟨[]⟩] ⟨"CCO", some ["logP", "tpsa"]⟩
      = some ([⟨[("logP", 5)]⟩], .ok
          { smiles := "CCO", status := "success",
            results := buildResults ⟨[("logP", 5)]⟩ ["logP", "tpsa"], error := none }))
    ∧ ∀ p ∈ (["logP", "tpsa"] : List String),
        dictGet p (buildResults (V := Nat) ⟨[("logP", 5)]⟩ ["logP", "tpsa"])
            = some (mkPropertyResult ⟨[("logP", 5)]⟩ p)
        ∧ ((∃ v, Admet.getattr (V := Nat) ⟨[("logP", 5)]⟩ ("get_" ++ p) = .ok v
              ∧ mkPropertyResult (V := Nat) ⟨[("logP", 5)]⟩ p
                  = { property := p, status := "success", results := some v, error := none })
          ∨ (∃ e, Admet.getattr (V := Nat) ⟨[("logP", 5)]⟩ ("get_" ++ p) = .error e
              ∧ mkPropertyResult (V := Nat) ⟨[("logP", 5)]⟩ p
                  = { property := p, status := "error", results := none, error := some e })) :=
  C2_per_property_isolation (fun _ => .ok [("logP", 5)]) [("logP", 5)] ⟨[]⟩ []
    ⟨"CCO", some ["logP", "tpsa"]⟩ ["logP", "tpsa"] rfl rfl

/-- C3: every request that acquires a worker returns it to the pool on every
exit path — alias-resolution failure, a raising prediction run, a raising
per-property read, or success — so the pool size after the request equals
its size before acquisition, for both the single and the bulk endpoint. -/
theorem C3_guaranteed_release {V : Type}
    (predict : String → Except String (List (String × V))) (m : Admet V)
    (rest : List (Admet V)) (req : Request) (filename contents : String)
    (property : Option (List String)) :
    (∃ pool2 r, smi_request predict (m :: rest) req = some (pool2, r)
      ∧ pool2.length = (m :: rest).length)
    ∧ (∃ pool2 r, upload_smi predict (m :: rest) filename contents property = some (pool2, r)
      ∧ pool2.length = (m :: rest).length) := by
  constructor
  · exact ⟨rest ++ [(smiBody predict req m).1], (smiBody predict req m).2, rfl, by simp⟩
  · rcases hgv : get_valid_properties property with ⟨props, err⟩
    cases err with
    | some e =>
      have hu : upload_smi predict (m :: rest) filename contents property
          = some (rest ++ [m], .ok
              { filename := filename, requested_properties := property,
                total_smiles := (parseSmilesLines contents).length, results := [] }) := by
        simp [upload_smi, hgv]
      exact ⟨_, _, hu, by simp⟩
    | none =>
      rcases hbl : bulkLoop predict props m (parseSmilesLines contents) with ⟨m2, res⟩
      cases res with
      | error ex =>
        have hu : upload_smi predict (m :: rest) filename contents property
            = some (rest ++ [m2], .error ex) := by
          simp [upload_smi, hgv, hbl]
        exact ⟨_, _, hu, by simp⟩
      | ok outputs =>
        have hu : upload_smi predict (m :: rest) filename contents property
            = some (rest ++ [m2], .ok
                { filename := filename, requested_properties := property,
                  total_smiles := (parseSmilesLines contents).length,
                  results := ((parseSmilesLines contents).zip outputs).map (fun p =>
                    { smiles := p.1, status := "success", results := p.2, error := none }) }) := by
          simp [upload_smi, hgv, hbl]
        exact ⟨_, _, hu, by simp⟩

/-- C4: for every requested alias list containing at least one alias that
does not resolve, batch resolution fails as a whole: it returns an empty
resolved list together with a single non-empty error message that names the
(first) invalid alias and ends with the full list of recognized alias keys;
no alias is resolved-then-filtered. -/
theorem C4_all_or_nothing (reqProps : List String)
    (hbad : ∃ p ∈ reqProps, dictGet p PROPERTY_NAME_MAP = none) :
    ∃ p ∈ reqProps, dictGet p PROPERTY_NAME_MAP = none
      ∧ get_valid_properties (some reqProps) = ([], some (invalidPropertyError p))
      ∧ invalidPropertyError p ≠ ""
      ∧ (∃ a b, invalidPropertyError p = a ++ p ++ b)
      ∧ (∃ c, invalidPropertyError p = c ++ pyListRepr (dictKeys PROPERTY_NAME_MAP)) := by
  induction reqProps with
  | nil => exact absurd hbad (by simp)
  | cons q rest ih =>
    rcases hq : dictGet q PROPERTY_NAME_MAP with _ | full
    · refine ⟨q, List.mem_cons_self q rest, hq, ?_, invalidPropertyError_ne_empty q,
        invalidPropertyError_names q, invalidPropertyError_lists_keys q⟩
      simp [get_valid_properties, resolveProps, hq]
    · obtain ⟨p, hp, hpnone⟩ := hbad
      have hprest : p ∈ rest := by
        rcases List.mem_cons.mp hp with hpq | hprest
        · exact absurd hpnone (by rw [hpq, hq]; simp)
        · exact hprest
      obtain ⟨p', hp', hnone', hres', hne', hnames', hkeys'⟩ := ih ⟨p, hprest, hpnone⟩
      refine ⟨p', List.mem_cons_of_mem q hp', hnone', ?_, hne', hnames', hkeys'⟩
      have hrest : resolveProps rest = ([], some (invalidPropertyError p')) := hres'
      simp [get_valid_properties, resolveProps, hq, hrest]

/-- C4 witness: the batch `["logP", "bogus"]` fails as a whole on `"bogus"`. -/
theorem C4_all_or_nothing_witness :
    ∃ p ∈ (["logP", "bogus"] : List String), dictGet p PROPERTY_NAME_MAP = none
      ∧ get_valid_properties (some ["logP", "bogus"]) = ([], some (invalidPropertyError p))
      ∧ invalidPropertyError p ≠ ""
      ∧ (∃ a b, invalidPropertyError p = a ++ p ++ b)
      ∧ (∃ c, invalidPropertyError p = c ++ pyListRepr (dictKeys PROPERTY_NAME_MAP)) :=
  C4_all_or_nothing ["logP", "bogus"] ⟨"bogus", by decide, rfl⟩

/-- C5 (code bug at endpoint.py:90): on alias-resolution failure the single
endpoint recovers and answers `status := "error"` with empty results, but
the computed error message is passed as the unknown keyword `errors=`
(the field is named `error`), which pydantic silently ignores: the `error`
field of the response is `none`, not the message listing the invalid alias
and the recognized aliases as the spec states. -/
theorem C5_error_field_dropped :
    (get_valid_properties (some ["bogus"]) = ([], some (invalidPropertyError "bogus")))
    ∧ smi_request (V := Nat) (fun _ => .ok []) [⟨[]⟩] ⟨"CCO", some ["bogus"]⟩
      = some ([⟨[]⟩], .ok
          { smiles := "CCO", status := "error", results := [], error := none }) :=
  ⟨rfl, rfl⟩

/-- C6 counterexample: an explicitly empty alias list does not resolve to the
full catalog id list — the source only checks `is None`, so `[]` takes the
validation loop and resolves to the empty list. -/
theorem C6_empty_list_cex :
    get_valid_properties (some []) = ([], none)
    ∧ ALL_PROPS.map (·.1) ≠ ([] : List String) := ⟨rfl, by decide⟩

/-- C6 (amended): an absent (`None`) alias list resolves to the full list of
canonical catalog ids in catalog order with no error; an explicitly empty
list resolves to the empty list with no error. -/
theorem C6_default_resolution :
    get_valid_properties none = (ALL_PROPS.map (·.1), none)
    ∧ get_valid_properties (some []) = ([], none) := ⟨rfl, rfl⟩

/-- C7 counterexample: lookup does not lowercase the supplied alias —
`"LOGP"` is a casing of the acceptable aliases `"logP"`/`"logp"` of the
canonical id `"logP"`, yet it does not resolve (the table is built from
already-normalized keys and lookup is exact match). -/
theorem C7_case_sensitive_cex :
    dictGet "logP" PROPERTY_NAME_MAP = some "logP"
    ∧ pyLower "LOGP" = "logp"
    ∧ dictGet "logp" PROPERTY_NAME_MAP = some "logP"
    ∧ dictGet "LOGP" PROPERTY_NAME_MAP = none
    ∧ get_valid_properties (some ["LOGP"]) = ([], some (invalidPropertyError "LOGP")) :=
  ⟨rfl, rfl, rfl, rfl, rfl⟩

/-- C7 (amended): every canonical id resolves to itself, its lowercase form
resolves to it, and its label lowercased with spaces mapped to underscores
resolves to it; normalization happens when the table is built, and lookup
is exact-match, so arbitrary casings of aliases are not accepted. -/
theorem C7_alias_resolution :
    ∀ p ∈ ALL_PROPS,
      dictGet p.1 PROPERTY_NAME_MAP = some p.1
      ∧ dictGet (pyLower p.1) PROPERTY_NAME_MAP = some p.1
      ∧ dictGet (pyUnderscore (pyLower p.2.1)) PROPERTY_NAME_MAP = some p.1 := by
  decide

/-- C7 witness at the catalog row of `logP`. -/
theorem C7_alias_resolution_witness :
    dictGet ("logP", "LogP", "regression").1 PROPERTY_NAME_MAP = some "logP"
    ∧ dictGet (pyLower ("logP", "LogP", "regression").1) PROPERTY_NAME_MAP = some "logP"
    ∧ dictGet (pyUnderscore (pyLower ("logP", "LogP", "regression").2.1)) PROPERTY_NAME_MAP
        = some "logP" :=
  C7_alias_resolution ("logP", "LogP", "regression") (by decide)

/-- C8: in the alias table built from the catalog, no two distinct canonical
ids contribute the same raw alias key (canonical id, lowercased id, or
lowercase-underscored label), and every canonical id maps to itself and to
its own lowercase form. -/
theorem C8_no_alias_collision :
    (∀ p ∈ ALL_PROPS, ∀ q ∈ ALL_PROPS, ∀ k1 ∈ aliasKeys p, ∀ k2 ∈ aliasKeys q,
      k1 = k2 → p.1 = q.1)
    ∧ (∀ p ∈ ALL_PROPS,
        dictGet p.1 PROPERTY_NAME_MAP = some p.1
        ∧ dictGet (pyLower p.1) PROPERTY_NAME_MAP = some p.1) := by
  constructor
  · decide
  · decide

/-- C8 witness at the catalog rows of `molecular_weight` and `logP` and the
shared-key question for the key `"logp"`. -/
theorem C8_no_alias_collision_witness :
    (("logP", "LogP", "regression").1 = ("logP", "LogP", "regression").1)
    ∧ dictGet ("molecular_weight", "Molecular Weight", "regression").1 PROPERTY_NAME_MAP
        = some "molecular_weight" :=
  ⟨C8_no_alias_collision.1 ("logP", "LogP", "regression") (by decide)
      ("logP", "LogP", "regression") (by decide) "logp" (by decide) "logp" (by decide) rfl,
   (C8_no_alias_collision.2 ("molecular_weight", "Molecular Weight", "regression") (by decide)).1⟩

/-- C9 counterexample: both handlers acquire a worker before resolving
aliases — a resolution-failing request on an empty pool blocks on `acquire`
(modelled by `none`) instead of erroring without a worker, and on a two-
worker pool it visibly takes the front worker and returns it to the back,
leaving the FIFO queue rotated; the same holds for the bulk endpoint. -/
theorem C9_worker_acquired_cex :
    (smi_request (V := Nat) (fun _ => .ok []) [] ⟨"CCO", some ["bogus"]⟩ = none)
    ∧ (smi_request (V := Nat) (fun _ => .ok []) [⟨[]⟩, ⟨[("seen", 7)]⟩] ⟨"CCO", some ["bogus"]⟩
        = some ([⟨[("seen", 7)]⟩, ⟨[]⟩], .ok
            { smiles := "CCO", status := "error", results := [], error := none }))
    ∧ (upload_smi (V := Nat) (fun _ => .ok []) [] "batch.smi" "CCO" (some ["bogus"]) = none)
    ∧ (upload_smi (V := Nat) (fun _ => .ok []) [⟨[]⟩, ⟨[("seen", 7)]⟩] "batch.smi" "CCO"
          (some ["bogus"])
        = some ([⟨[("seen", 7)]⟩, ⟨[]⟩], .ok
            { filename := "batch.smi", requested_properties := some ["bogus"],
              total_smiles := 1, results := [] }))
    ∧ ([(⟨[("seen", 7)]⟩ : Admet Nat), ⟨[]⟩] ≠ [(⟨[]⟩ : Admet Nat), ⟨[("seen", 7)]⟩]) :=
  ⟨rfl, rfl, rfl, rfl, by decide⟩

/-- C9 (amended): a request that fails alias resolution — single or bulk —
still acquires a worker first (resolution runs after `acquire`), reaches
its error response with the worker released back to the pool on the
`finally` path (the front worker moves to the back, count preserved), and
blocks if the pool is empty. -/
theorem C9_acquire_then_release {V : Type}
    (predict : String → Except String (List (String × V))) (m : Admet V)
    (rest : List (Admet V)) (req : Request) (filename contents : String)
    (property : Option (List String)) (e e2 : String)
    (hfail : (get_valid_properties req.property).2 = some e)
    (hfail2 : (get_valid_properties property).2 = some e2) :
    (smi_request predict (m :: rest) req
      = some (rest ++ [m], .ok
          { smiles := req.smiles, status := "error", results := [], error := none }))
    ∧ smi_request predict ([] : List (Admet V)) req = none
    ∧ (upload_smi predict (m :: rest) filename contents property
      = some (rest ++ [m], .ok
          { filename := filename, requested_properties := property,
            total_smiles := (parseSmilesLines contents).length, results := [] }))
    ∧ upload_smi predict ([] : List (Admet V)) filename contents property = none := by
  obtain ⟨l2, hl2⟩ : ∃ l2, get_valid_properties property = (l2, some e2) :=
    ⟨(get_valid_properties property).1, by rw [← hfail2]⟩
  refine ⟨?_, rfl, ?_, rfl⟩
  · simp [smi_request, smiBody_resolution_error predict req m e hfail]
  · simp [upload_smi, hl2]

/-- C9 witness at a concrete invalid-alias request, single and bulk. -/
theorem C9_acquire_then_release_witness :
    (smi_request (V := Nat) (fun _ => .ok []) [⟨[]⟩] ⟨"CCO", some ["bogus"]⟩
      = some ([] ++ [(⟨[]⟩ : Admet Nat)], .ok
          { smiles := "CCO", status := "error", results := [], error := none }))
    ∧ smi_request (V := Nat) (fun _ => .ok []) [] ⟨"CCO", some ["bogus"]⟩ = none
    ∧ (upload_smi (V := Nat) (fun _ => .ok []) [⟨[]⟩] "batch.smi" "CCO" (some ["bogus"])
      = some ([] ++ [(⟨[]⟩ : Admet Nat)], .ok
          { filename := "batch.smi", requested_properties := some ["bogus"],
            total_smiles := (parseSmilesLines "CCO").length, results := [] }))
    ∧ upload_smi (V := Nat) (fun _ => .ok []) [] "batch.smi" "CCO" (some ["bogus"]) = none :=
  C9_acquire_then_release (fun _ => .ok []) ⟨[]⟩ [] ⟨"CCO", some ["bogus"]⟩
    "batch.smi" "CCO" (some ["bogus"])
    (invalidPropertyError "bogus") (invalidPropertyError "bogus") rfl rfl

/-- C10: for every single-input request whose aliases all resolve and whose
prediction run does not raise, the top-level response status is
`"success"` — the response is fully determined by the run's predictions,
with no condition on the per-property outcomes, so it is `"success"` even
when every individual `PropertyResult` has status `"error"`. -/
theorem C10_top_level_status {V : Type}
    (predict : String → Except String (List (String × V))) (preds : List (String × V))
    (m : Admet V) (rest : List (Admet V)) (req : Request) (props : List String)
    (hres : get_valid_properties req.property = (props, none))
    (hrun : predict req.smiles = .ok preds) :
    smi_request predict (m :: rest) req
      = some (rest ++ [⟨preds⟩], .ok
          { smiles := req.smiles, status := "success",
            results := buildResults ⟨preds⟩ props, error := none }) := by
  simp [smi_request, smiBody_success predict req m props preds hres hrun]

/-- C10 witness: an empty prediction run makes every per-property result an
error, yet the top-level status is `"success"`. -/
theorem C10_top_level_status_witness :
    (smi_request (V := Nat) (fun _ => .ok []) [⟨[]⟩] ⟨"CCO", some ["logP"]⟩
      = some ([] ++ [(⟨[]⟩ : Admet Nat)], .ok
          { smiles := "CCO", status := "success",
            results := buildResults (⟨[]⟩ : Admet Nat) ["logP"], error := none }))
    ∧ dictGet "logP" (buildResults (V := Nat) ⟨[]⟩ ["logP"])
        = some { property := "logP", status := "error", results := none,
                 error := some "get_logP" } :=
  ⟨C10_top_level_status (fun _ => .ok []) [] ⟨[]⟩ [] ⟨"CCO", some ["logP"]⟩ ["logP"] rfl rfl,
   rfl⟩

end AdmetAI
